import Mathlib

/-!
Verification of the labkit lifecycle tool (src/labkit.ts) against its
specification.  The TypeScript source is shallowly embedded: parsed YAML
values are modelled by `JValue`, the process environment and the built
environment mapping by association lists with JavaScript object semantics
(an assignment shadows earlier entries; a lookup sees the most recent
assignment), and every external effect (`execSync`, `chmodSync`) by an
explicit event trace driven by an oracle that decides which external
commands succeed.
-/

namespace Labkit

/-- A parsed YAML value, as produced by `parse(configContent)` in `readConfig`. -/
inductive JValue where
  | null : JValue
  | bool : Bool → JValue
  | num : Int → JValue
  | str : String → JValue
  | arr : List JValue → JValue
  | obj : List (String × JValue) → JValue

/-- JavaScript truthiness of a possibly-undefined value (`none` models
`undefined`): `null`, `undefined`, `false`, `0` and `""` are falsy. -/
def jsTruthy : Option JValue → Bool
  | none => false
  | some JValue.null => false
  | some (JValue.bool b) => b
  | some (JValue.num n) => !(n == 0)
  | some (JValue.str s) => !(s == "")
  | some (JValue.arr _) => true
  | some (JValue.obj _) => true

/-- `Array.isArray` on a possibly-undefined value. -/
def isArray : Option JValue → Bool
  | some (JValue.arr _) => true
  | _ => false

/-- Errors raised inside `readConfig`'s validation code. -/
inductive JSError where
  | missingProp : String → JSError
  | invalidScripts : JSError
  | typeError : JSError
deriving Repr, DecidableEq

/-- JavaScript property access `v.k` on a possibly-undefined value:
accessing a property of `undefined` or `null` throws a `TypeError`;
on an object it returns the field value (or `undefined` when absent);
on any other value it returns `undefined` (no built-in properties are
involved for the names the program reads). -/
def jsGetProp : Option JValue → String → Except JSError (Option JValue)
  | none, _ => Except.error JSError.typeError
  | some JValue.null, _ => Except.error JSError.typeError
  | some (JValue.obj fields), k =>
      Except.ok ((fields.find? (fun q => q.1 == k)).map (fun q => q.2))
  | some _, _ => Except.ok none

/-- The `requiredProps` list of `readConfig`, in source order. -/
def requiredProps : List String :=
  ["appId", "source", "scripts", "appRepository", "appVersion", "appDirectory"]

/-- The JavaScript `in` operator on an object's field list. -/
def hasKeyJ (fields : List (String × JValue)) (k : String) : Bool :=
  fields.any (fun q => q.1 == k)

/-- The validation part of `readConfig` (src/labkit.ts lines 53-65): the
loop over `requiredProps` throws naming the first property not in the
config object, then the shape of `scripts` is checked via
`!config.scripts.setup || !Array.isArray(config.scripts.setup) ||
!config.scripts.start`.  The `in` operator throws a `TypeError` when the
parsed value is not an object. -/
def validateConfig (config : JValue) : Except JSError JValue :=
  match config with
  | JValue.obj fields =>
    match requiredProps.find? (fun p => !(hasKeyJ fields p)) with
    | some p => Except.error (JSError.missingProp p)
    | none =>
      let scriptsVal := (fields.find? (fun q => q.1 == "scripts")).map (fun q => q.2)
      match jsGetProp scriptsVal "setup" with
      | Except.error e => Except.error e
      | Except.ok setup =>
        if !(jsTruthy setup) then Except.error JSError.invalidScripts
        else if !(isArray setup) then Except.error JSError.invalidScripts
        else
          match jsGetProp scriptsVal "start" with
          | Except.error e => Except.error e
          | Except.ok start =>
            if !(jsTruthy start) then Except.error JSError.invalidScripts
            else Except.ok config
  | _ => Except.error JSError.typeError

/-- The message of each error thrown by `readConfig`'s validation. -/
def errorMessage : JSError → String
  | JSError.missingProp p => "Missing required property in config: " ++ p
  | JSError.invalidScripts => "Invalid scripts configuration in config"
  | JSError.typeError => "TypeError"

/-- The first of the six required properties missing from a parsed config. -/
def firstMissingProp (config : JValue) : Option String :=
  match config with
  | JValue.obj fields => requiredProps.find? (fun p => !(hasKeyJ fields p))
  | _ => none

/-- The `python.environment` discriminant.  `none` here is the literal
string value `'none'` of the source (or any other string, which the two
strict-equality tests of the source treat identically). -/
inductive PyEnv where
  | venv : PyEnv
  | conda : PyEnv
  | none : PyEnv
deriving Repr, DecidableEq

/-- One entry of `config.ports`.  The source interface declares
`envVar: number`, but the value is only ever used as a property key and
as the name of an environment variable; it is modelled as a string. -/
structure PortDecl where
  type : String
  envVar : String
  port : Int
deriving Repr, DecidableEq

/-- One entry of `config.additionalOptions`. -/
structure AdditionalOption where
  envVar : String
  default : String
  description : String
deriving Repr, DecidableEq

/-- The `scripts` field of the configuration. -/
structure Scripts where
  setup : List String
  start : String
deriving Repr, DecidableEq

/-- The `Config` interface of src/labkit.ts. -/
structure Config where
  appId : String
  source : String
  scripts : Scripts
  autoInitialize : Bool
  autoActivateEnvBeforeEachStep : Bool
  appRepository : String
  appVersion : String
  appDirectory : String
  python : Option PyEnv
  ports : Option (List PortDecl)
  additionalOptions : Option (List AdditionalOption)
deriving Repr, DecidableEq

/-- An environment mapping (`NodeJS.ProcessEnv`): a JavaScript object
modelled as an association list where the most recent assignment is
found first. -/
abbrev Env := List (String × String)

/-- The JavaScript `in` check on an environment object. -/
def envHasKey (e : Env) (k : String) : Bool := e.any (fun p => p.1 == k)

/-- Property read on an environment object: the most recent assignment wins. -/
def envLookup (e : Env) (k : String) : Option String :=
  (e.find? (fun p => p.1 == k)).map (fun p => p.2)

/-- Property assignment `e[k] = v`: the new binding shadows any earlier one. -/
def envSet (e : Env) (k v : String) : Env := (k, v) :: e

/-- Object-literal spread: assign every entry of `spread`, in order, on
top of the already-seeded `seed` (later assignments win, as in a
JavaScript object literal). -/
def objSpread (seed spread : Env) : Env :=
  spread.foldl (fun acc p => envSet acc p.1 p.2) seed

/-- The guarded assignment loop used for ports and additional options:
`if (!(envVar in envVars)) envVars[envVar] = value`. -/
def addGuarded (e : Env) (l : List (String × String)) : Env :=
  l.foldl (fun acc p => if envHasKey acc p.1 then acc else envSet acc p.1 p.2) e

/-- The object literal at the top of `setEnvVars`:
`APP_REPO`, `APP_VERSION`, `APP_DIRECTORY` from the configuration, then
`...process.env` spread on top of them. -/
def seedEnv (config : Config) (procEnv : Env) : Env :=
  objSpread
    (envSet (envSet (envSet [] "APP_REPO" config.appRepository)
      "APP_VERSION" config.appVersion) "APP_DIRECTORY" config.appDirectory)
    procEnv

/-- The `(envVar, port.toString())` pairs of the `config.ports` loop. -/
def portEntries : Option (List PortDecl) → List (String × String)
  | some ports => ports.map (fun o => (o.envVar, toString o.port))
  | none => []

/-- The `(envVar, default)` pairs of the `config.additionalOptions` loop. -/
def optionEntries : Option (List AdditionalOption) → List (String × String)
  | some opts => opts.map (fun o => (o.envVar, o.default))
  | none => []

/-- `setEnvVars` (src/labkit.ts lines 75-102): seed the object literal,
then the guarded port loop, then the guarded additional-options loop. -/
def setEnvVars (config : Config) (procEnv : Env) : Env :=
  addGuarded (addGuarded (seedEnv config procEnv) (portEntries config.ports))
    (optionEntries config.additionalOptions)

/-- `getActivationCommand` (src/labkit.ts lines 105-112). -/
def getActivationCommand (config : Config) : String :=
  match config.python with
  | some PyEnv.venv => "source " ++ config.appDirectory ++ "/venv/bin/activate && "
  | some PyEnv.conda => "conda activate " ++ config.appId ++ " && "
  | _ => ""

/-- The options given to one `execSync` call, as far as the claims are
concerned: the `shell` option, the `env` option and the `cwd` option
(`none` = option not passed, so Node's defaults apply: `/bin/sh`,
the parent's environment, the parent's working directory). -/
structure ExecOptions where
  shell : Option String
  env : Option Env
  cwd : Option String
deriving Repr, DecidableEq

/-- The options of an `execSync(cmd, { stdio: 'inherit' })` call, which
passes neither `shell`, nor `env`, nor `cwd`. -/
def defaultExecOptions : ExecOptions := ⟨none, none, none⟩

/-- One observable external effect of the program. -/
inductive Event where
  | exec : String → ExecOptions → Event
  | chmod : String → String → Event
deriving Repr, DecidableEq

/-- The errors thrown by the program (src/labkit.ts), caught by `main`'s
top-level handler. -/
inductive Err where
  | usageError : String → Err
  | notFound : Err
  | configError : JSError → Err
  | permissionError : Err
  | childProcessError : String → Err
deriving Repr, DecidableEq

/-- Behaviour of the outside world: whether a given external command
exits with status zero, and whether `chmodSync` on a given path succeeds. -/
structure Oracle where
  execOk : String → Bool
  chmodOk : String → Bool

/-- `path.join` for the plain relative script names the program joins. -/
def pathJoin (a b : String) : String := a ++ "/" ++ b

/-- `String.prototype.endsWith`, evaluated on character lists. -/
def strEndsWith (s suff : String) : Bool := suff.data.isSuffixOf s.data

/-- Result of one function that may perform external effects: the events
actually performed, in order, and the error that aborted it, if any. -/
abbrev Res := List Event × Option Err

/-- `runScript` (src/labkit.ts lines 115-133): optional activation
prefix, a `chmodSync(path.join(baseDir, script), '755')` when the script
name ends in `.sh` (a failing chmod rethrows, so the command is never
executed), then `execSync(fullCommand, { stdio: 'inherit', shell:
'/bin/bash', env, cwd: baseDir })`. -/
def runScript (script : String) (config : Config) (env : Env) (baseDir : String)
    (o : Oracle) : Res :=
  let activationCommand :=
    if config.autoActivateEnvBeforeEachStep then getActivationCommand config else ""
  let fullCommand := activationCommand ++ script
  let execEv := Event.exec fullCommand ⟨some "/bin/bash", some env, some baseDir⟩
  let execStep : Res :=
    if o.execOk fullCommand then ([execEv], none)
    else ([execEv], some (Err.childProcessError fullCommand))
  if strEndsWith script ".sh" then
    let scriptPath := pathJoin baseDir script
    if o.chmodOk scriptPath then
      (Event.chmod scriptPath "755" :: execStep.1, execStep.2)
    else
      ([Event.chmod scriptPath "755"], some Err.permissionError)
  else
    execStep

/-- `initializeRepo` (src/labkit.ts lines 136-142): `git clone` then
`git checkout`, each via `execSync(cmd, { stdio: 'inherit' })` with no
`shell`, `env` or `cwd` option. -/
def initializeRepo (config : Config) (o : Oracle) : Res :=
  let cloneCmd := "git clone " ++ config.appRepository ++ " \"" ++ config.appDirectory ++ "\""
  let checkoutCmd := "cd \"" ++ config.appDirectory ++ "\" && git checkout " ++ config.appVersion
  if o.execOk cloneCmd then
    if o.execOk checkoutCmd then
      ([Event.exec cloneCmd defaultExecOptions, Event.exec checkoutCmd defaultExecOptions], none)
    else
      ([Event.exec cloneCmd defaultExecOptions, Event.exec checkoutCmd defaultExecOptions],
        some (Err.childProcessError checkoutCmd))
  else
    ([Event.exec cloneCmd defaultExecOptions], some (Err.childProcessError cloneCmd))

/-- `setupPythonEnvironment` (src/labkit.ts lines 145-155): venv or conda
provisioning via `execSync(cmd, { stdio: 'inherit' })` with no `shell`,
`env` or `cwd` option; otherwise a no-op. -/
def setupPythonEnvironment (config : Config) (o : Oracle) : Res :=
  match config.python with
  | some PyEnv.venv =>
    let cmd := "python3 -m venv --system-site-packages \"" ++ config.appDirectory ++ "/venv\""
    if o.execOk cmd then ([Event.exec cmd defaultExecOptions], none)
    else ([Event.exec cmd defaultExecOptions], some (Err.childProcessError cmd))
  | some PyEnv.conda =>
    let cmd := "conda create -n " ++ config.appId ++ " python=3.8 -y"
    if o.execOk cmd then ([Event.exec cmd defaultExecOptions], none)
    else ([Event.exec cmd defaultExecOptions], some (Err.childProcessError cmd))
  | _ => ([], none)

/-- The `if (config.autoInitialize)` block of `main`'s install branch:
`initializeRepo` then `setupPythonEnvironment`, each failure aborting. -/
def initPhase (config : Config) (o : Oracle) : Res :=
  if config.autoInitialize then
    match initializeRepo config o with
    | (t1, some e) => (t1, some e)
    | (t1, none) =>
      match setupPythonEnvironment config o with
      | (t2, e2) => (t1 ++ t2, e2)
  else ([], none)

/-- The `for (const setupScript of config.scripts.setup)` loop of `main`:
each script through `runScript`, a thrown error aborting the rest. -/
def runSetupScripts (scripts : List String) (config : Config) (env : Env)
    (baseDir : String) (o : Oracle) : Res :=
  match scripts with
  | [] => ([], none)
  | s :: rest =>
    match runScript s config env baseDir o with
    | (tr, some e) => (tr, some e)
    | (tr, none) =>
      match runSetupScripts rest config env baseDir o with
      | (tr2, e2) => (tr ++ tr2, e2)

/-- The command dispatch of `main` (src/labkit.ts lines 180-196), after
configuration loading succeeded: `install` runs the initialization phase
then the setup scripts; `start` runs the start script once. -/
def mainWithConfig (command : String) (baseDir : String) (config : Config)
    (procEnv : Env) (o : Oracle) : Res :=
  let env := setEnvVars config procEnv
  if command == "install" then
    match initPhase config o with
    | (itr, some e) => (itr, some e)
    | (itr, none) =>
      match runSetupScripts config.scripts.setup config env baseDir o with
      | (str, serr) => (itr ++ str, serr)
  else if command == "start" then
    runScript config.scripts.start config env baseDir o
  else ([], none)

/-- The process exit status: `main` catches any error, prints it and
calls `process.exit(1)`; otherwise the process ends with status 0. -/
def exitCode (r : Res) : Nat :=
  match r.2 with
  | some _ => 1
  | none => 0

/-- JavaScript string coercion of a parsed value, as performed by the
template literals of the source.  Array elements are joined by commas. -/
def jsToString : JValue → String
  | JValue.null => "null"
  | JValue.bool b => cond b "true" "false"
  | JValue.num n => toString n
  | JValue.str s => s
  | JValue.arr xs => String.intercalate "," (xs.attach.map (fun x => jsToString x.1))
  | JValue.obj _ => "[object Object]"
decreasing_by
  have h := List.sizeOf_lt_of_mem x.2
  simp only [JValue.arr.sizeOf_spec]
  omega

/-- Coercion of a possibly-undefined value. -/
def jsToStringOpt : Option JValue → String
  | none => "undefined"
  | some v => jsToString v

/-- Property read `v[k]` used after validation (where the value is known
to be an object). -/
def objGet (v : JValue) (k : String) : Option JValue :=
  match v with
  | JValue.obj fields => (fields.find? (fun q => q.1 == k)).map (fun q => q.2)
  | _ => none

/-- The `config.python?.environment === 'venv' / 'conda'` discrimination:
a missing or null `python` section short-circuits to undefined (neither
test matches, like `'none'` or any other value). -/
def decodePython (v : Option JValue) : Option PyEnv :=
  match v with
  | some (JValue.obj pf) =>
    match (pf.find? (fun q => q.1 == "environment")).map (fun q => q.2) with
    | some (JValue.str "venv") => some PyEnv.venv
    | some (JValue.str "conda") => some PyEnv.conda
    | _ => some PyEnv.none
  | some JValue.null => none
  | none => none
  | some _ => some PyEnv.none

/-- One entry of the `ports` array, as the loops of `setEnvVars` use it. -/
def decodePort (v : JValue) : PortDecl :=
  { type := jsToStringOpt (objGet v "type")
    envVar := jsToStringOpt (objGet v "envVar")
    port :=
      match objGet v "port" with
      | some (JValue.num n) => n
      | _ => 0 }

/-- One entry of the `additionalOptions` array. -/
def decodeOption (v : JValue) : AdditionalOption :=
  { envVar := jsToStringOpt (objGet v "envVar")
    default := jsToStringOpt (objGet v "default")
    description := jsToStringOpt (objGet v "description") }

/-- The `as Config` view of the parsed value, i.e. how the rest of the
program reads the dynamically-typed fields: strings via template-literal
coercion, flags via truthiness, the optional sections only when present
with the shape the loops can iterate. -/
def decodeConfig (config : JValue) : Config :=
  { appId := jsToStringOpt (objGet config "appId")
    source := jsToStringOpt (objGet config "source")
    scripts :=
      { setup :=
          match objGet config "scripts" with
          | some sv =>
            match objGet sv "setup" with
            | some (JValue.arr xs) => xs.attach.map (fun x => jsToString x.1)
            | _ => []
          | none => []
        start :=
          match objGet config "scripts" with
          | some sv => jsToStringOpt (objGet sv "start")
          | none => "undefined" }
    autoInitialize := jsTruthy (objGet config "autoInitialize")
    autoActivateEnvBeforeEachStep := jsTruthy (objGet config "autoActivateEnvBeforeEachStep")
    appRepository := jsToStringOpt (objGet config "appRepository")
    appVersion := jsToStringOpt (objGet config "appVersion")
    appDirectory := jsToStringOpt (objGet config "appDirectory")
    python := decodePython (objGet config "python")
    ports :=
      match objGet config "ports" with
      | some (JValue.arr xs) => some (xs.map decodePort)
      | _ => none
    additionalOptions :=
      match objGet config "additionalOptions" with
      | some (JValue.arr xs) => some (xs.map decodeOption)
      | _ => none }

/-- `main` (src/labkit.ts lines 158-205): argument validation in source
order, then `readConfig` (existence check, parse — the parsed value is
given —, validation), then `setEnvVars` and the command dispatch.  Every
thrown error is caught at the top and makes the process exit non-zero
with an empty remaining trace. -/
def main (argv2 argv3 : Option String) (dirExists fileExists : Bool)
    (rawConfig : JValue) (procEnv : Env) (o : Oracle) : Res :=
  match argv2 with
  | none =>
    ([], some (Err.usageError "Please provide a valid command: \"install\" or \"start\""))
  | some command =>
    if !(["install", "start"].contains command) then
      ([], some (Err.usageError "Please provide a valid command: \"install\" or \"start\""))
    else
      match argv3 with
      | none =>
        ([], some (Err.usageError "Please provide a directory as a command line argument."))
      | some baseDir =>
        if baseDir == "" then
          ([], some (Err.usageError "Please provide a directory as a command line argument."))
        else if !dirExists then
          ([], some (Err.usageError ("Specified directory does not exist: " ++ baseDir)))
        else if !fileExists then
          ([], some Err.notFound)
        else
          match validateConfig rawConfig with
          | Except.error e => ([], some (Err.configError e))
          | Except.ok cfgRaw => mainWithConfig command baseDir (decodeConfig cfgRaw) procEnv o

/-- Whether an event is a child-process invocation. -/
def isExecEvent : Event → Bool
  | Event.exec _ _ => true
  | Event.chmod _ _ => false

/-- Whether an event is a permission change. -/
def isChmodEvent : Event → Bool
  | Event.exec _ _ => false
  | Event.chmod _ _ => true

/-- The shape check `readConfig` performs on the `scripts` value beyond
key presence: `setup` must be an array (arrays are truthy) and `start`
must be truthy. -/
def scriptsShapeOk (sv : Option JValue) : Bool :=
  match sv with
  | some (JValue.obj sfields) =>
    (match (sfields.find? (fun q => q.1 == "setup")).map (fun q => q.2) with
     | some (JValue.arr _) => true
     | _ => false)
    && jsTruthy ((sfields.find? (fun q => q.1 == "start")).map (fun q => q.2))
  | _ => false

/-! Concrete fixtures used by witnesses and counterexamples. -/

/-- A small valid configuration. -/
def sampleConfig : Config :=
  { appId := "myapp"
    source := "github"
    scripts := ⟨["setup.sh"], "run.sh"⟩
    autoInitialize := false
    autoActivateEnvBeforeEachStep := false
    appRepository := "https://example.com/app.git"
    appVersion := "v1.0"
    appDirectory := "/opt/app"
    python := none
    ports := some [⟨"web", "PORT", 8080⟩]
    additionalOptions := some [⟨"MODE", "fast", "execution mode"⟩] }

/-- The sample configuration with a venv python section and activation. -/
def sampleVenv : Config :=
  { sampleConfig with python := some PyEnv.venv, autoActivateEnvBeforeEachStep := true }

/-- The sample configuration with a conda python section. -/
def sampleConda : Config :=
  { sampleConfig with python := some PyEnv.conda, autoActivateEnvBeforeEachStep := true }

/-- The sample configuration with `python.environment: none`. -/
def samplePyNone : Config :=
  { sampleConfig with python := some PyEnv.none }

/-- The sample configuration with `autoInitialize: true`. -/
def sampleAutoInit : Config :=
  { sampleConfig with autoInitialize := true }

/-- The sample configuration with two setup scripts. -/
def sampleTwoScripts : Config :=
  { sampleConfig with scripts := ⟨["a.sh", "b.sh"], "run.sh"⟩ }

/-- A world where every external command and chmod succeeds. -/
def oraAllOk : Oracle := ⟨fun _ => true, fun _ => true⟩

/-- A world where the command `a.sh` exits non-zero and all else succeeds. -/
def oraFailA : Oracle := ⟨fun c => !(c == "a.sh"), fun _ => true⟩

/-- A world where every chmod fails. -/
def oraNoChmod : Oracle := ⟨fun _ => true, fun _ => false⟩

/-- A parsed configuration whose first missing required field is `appId`. -/
def rawMissingAppId : JValue := JValue.obj [("source", JValue.str "github")]

/-- A parsed configuration with all six required keys present, but a
`scripts` value whose `setup` entry is null. -/
def rawBadScripts : JValue :=
  JValue.obj
    [("appId", JValue.str "myapp"), ("source", JValue.str "github"),
     ("scripts", JValue.obj [("setup", JValue.null), ("start", JValue.str "run.sh")]),
     ("appRepository", JValue.str "https://r"), ("appVersion", JValue.str "v1"),
     ("appDirectory", JValue.str "/d")]

/-- Fields of a parsed configuration with all six required keys present,
several of them null or non-string, and a well-shaped `scripts` value. -/
def rawNullFieldsList : List (String × JValue) :=
  [("appId", JValue.null), ("source", JValue.null),
   ("scripts", JValue.obj [("setup", JValue.arr []), ("start", JValue.str "run.sh")]),
   ("appRepository", JValue.null), ("appVersion", JValue.num 3),
   ("appDirectory", JValue.str "/d")]

/-! Environment-mapping lemmas. -/

theorem envLookup_envSet_self (e : Env) (k v : String) :
    envLookup (envSet e k v) k = some v := by
  simp [envLookup, envSet]

theorem envLookup_envSet_ne (e : Env) (k v k' : String) (h : (k == k') = false) :
    envLookup (envSet e k v) k' = envLookup e k' := by
  unfold envLookup envSet
  rw [List.find?_cons_of_neg]
  simp [h]

theorem envHasKey_envSet (e : Env) (k v k' : String) :
    envHasKey (envSet e k v) k' = (k == k' || envHasKey e k') := by
  simp [envHasKey, envSet, List.any_cons]

theorem envHasKey_eq_false_of_not_mem (e : Env) (k : String)
    (h : k ∉ e.map Prod.fst) : envHasKey e k = false := by
  rw [envHasKey, List.any_eq_false]
  intro x hx
  simp only [beq_iff_eq]
  intro heq
  exact h (List.mem_map.mpr ⟨x, hx, heq⟩)

theorem objSpread_cons (seed : Env) (p : String × String) (rest : Env) :
    objSpread seed (p :: rest) = objSpread (envSet seed p.1 p.2) rest := rfl

theorem envHasKey_cons (p : String × String) (rest : Env) (k : String) :
    envHasKey (p :: rest) k = ((p.1 == k) || envHasKey rest k) := by
  rw [envHasKey, List.any_cons]; rfl

theorem envHasKey_objSpread (seed sp : Env) (k : String) :
    envHasKey (objSpread seed sp) k = (envHasKey sp k || envHasKey seed k) := by
  induction sp generalizing seed with
  | nil => simp [objSpread, envHasKey]
  | cons p rest ih =>
    rw [objSpread_cons, ih]
    rw [envHasKey_envSet, envHasKey_cons, Bool.or_assoc, Bool.or_left_comm]

theorem envLookup_objSpread_not_has (seed sp : Env) (k : String)
    (h : envHasKey sp k = false) :
    envLookup (objSpread seed sp) k = envLookup seed k := by
  induction sp generalizing seed with
  | nil => rfl
  | cons p rest ih =>
    rw [envHasKey, List.any_cons, Bool.or_eq_false_iff] at h
    rw [objSpread_cons, ih _ h.2, envLookup_envSet_ne _ _ _ _ h.1]

theorem envLookup_objSpread (seed sp : Env) (k : String)
    (hnd : (sp.map Prod.fst).Nodup) :
    envLookup (objSpread seed sp) k =
      if envHasKey sp k then envLookup sp k else envLookup seed k := by
  induction sp generalizing seed with
  | nil => simp [objSpread, envHasKey, envLookup]
  | cons p rest ih =>
    rw [List.map_cons, List.nodup_cons] at hnd
    obtain ⟨hnotin, hndrest⟩ := hnd
    rw [objSpread_cons, ih _ hndrest]
    by_cases hpk : p.1 = k
    · subst hpk
      have hrest : envHasKey rest p.1 = false := envHasKey_eq_false_of_not_mem _ _ hnotin
      rw [hrest]
      have hcons : envHasKey (p :: rest) p.1 = true := by
        rw [envHasKey, List.any_cons]; simp
      rw [hcons]
      simp only [if_neg (by simp : ¬False), Bool.false_eq_true, if_false, if_true]
      rw [envLookup_envSet_self]
      unfold envLookup
      rw [List.find?_cons_of_pos _ (by simp)]
      rfl
    · have hne : (p.1 == k) = false := by simp [hpk]
      have hcons : envHasKey (p :: rest) k = envHasKey rest k := by
        rw [envHasKey, List.any_cons, hne]; simp [envHasKey]
      rw [hcons, envLookup_envSet_ne _ _ _ _ hne]
      by_cases hr : envHasKey rest k = true
      · rw [hr]
        simp only [if_true]
        unfold envLookup
        rw [List.find?_cons_of_neg _ (by simp [hne])]
      · rw [Bool.not_eq_true] at hr
        rw [hr]
        simp

theorem addGuarded_cons (e : Env) (p : String × String) (l : List (String × String)) :
    addGuarded e (p :: l)
      = addGuarded (if envHasKey e p.1 then e else envSet e p.1 p.2) l := rfl

theorem envHasKey_of_lookup (e : Env) (k v : String)
    (h : envLookup e k = some v) : envHasKey e k = true := by
  induction e with
  | nil => simp [envLookup] at h
  | cons p rest ih =>
    rw [envHasKey_cons]
    cases hq : p.1 == k with
    | true => rfl
    | false =>
      rw [envLookup] at h
      rw [List.find?_cons_of_neg _ (by simp [hq])] at h
      rw [Bool.false_or]
      exact ih h

theorem envHasKey_addGuarded_frame (e : Env) (l : List (String × String)) (k : String)
    (h : envHasKey e k = true) : envHasKey (addGuarded e l) k = true := by
  induction l generalizing e with
  | nil => exact h
  | cons p rest ih =>
    rw [addGuarded_cons]
    by_cases hp : envHasKey e p.1 = true
    · rw [if_pos hp]; exact ih _ h
    · rw [if_neg hp]
      exact ih _ (by rw [envHasKey_envSet, h, Bool.or_true])

theorem envLookup_addGuarded_frame (e : Env) (l : List (String × String)) (k : String)
    (h : envHasKey e k = true) : envLookup (addGuarded e l) k = envLookup e k := by
  induction l generalizing e with
  | nil => rfl
  | cons p rest ih =>
    rw [addGuarded_cons]
    by_cases hp : envHasKey e p.1 = true
    · rw [if_pos hp]; exact ih _ h
    · have hpf : envHasKey e p.1 = false := by
        rw [← Bool.not_eq_true]; exact hp
      have hne : (p.1 == k) = false := by
        cases hq : p.1 == k with
        | false => rfl
        | true =>
          have heq : p.1 = k := by simpa using hq
          rw [heq, h] at hpf
          exact absurd hpf (by simp)
      rw [if_neg hp]
      rw [ih _ (by rw [envHasKey_envSet, h, Bool.or_true]),
        envLookup_envSet_ne _ _ _ _ hne]

theorem envLookup_addGuarded_find (e : Env) (l : List (String × String)) (k : String)
    (q : String × String)
    (h : envHasKey e k = false) (hf : l.find? (fun p => p.1 == k) = some q) :
    envLookup (addGuarded e l) k = some q.2 := by
  induction l generalizing e with
  | nil => simp at hf
  | cons p rest ih =>
    rw [addGuarded_cons]
    cases hpk : p.1 == k with
    | true =>
      have hk : p.1 = k := by simpa using hpk
      subst hk
      rw [List.find?_cons_of_pos _ (by simp)] at hf
      injection hf with hq
      subst hq
      rw [if_neg (by simp [h])]
      rw [envLookup_addGuarded_frame _ _ _ (by rw [envHasKey_envSet]; simp)]
      exact envLookup_envSet_self _ _ _
    | false =>
      rw [List.find?_cons_of_neg _ (by simp [hpk])] at hf
      by_cases hp : envHasKey e p.1 = true
      · rw [if_pos hp]; exact ih _ h hf
      · rw [if_neg hp]
        exact ih _ (by rw [envHasKey_envSet, hpk, h]; rfl) hf

theorem addGuarded_not_mentioned (e : Env) (l : List (String × String)) (k : String)
    (h : l.all (fun p => !(p.1 == k)) = true) :
    envLookup (addGuarded e l) k = envLookup e k ∧
      envHasKey (addGuarded e l) k = envHasKey e k := by
  induction l generalizing e with
  | nil => exact ⟨rfl, rfl⟩
  | cons p rest ih =>
    rw [List.all_cons, Bool.and_eq_true] at h
    have hpk : (p.1 == k) = false := by
      cases hq : p.1 == k with
      | false => rfl
      | true => rw [hq] at h; exact absurd h.1 (by simp)
    rw [addGuarded_cons]
    by_cases hp : envHasKey e p.1 = true
    · rw [if_pos hp]; exact ih _ h.2
    · rw [if_neg hp]
      obtain ⟨h1, h2⟩ := ih (envSet e p.1 p.2) h.2
      refine ⟨?_, ?_⟩
      · rw [h1, envLookup_envSet_ne _ _ _ _ hpk]
      · rw [h2, envHasKey_envSet, hpk, Bool.false_or]

theorem all_map_general {α β : Type} (f : α → β) (l : List α) (p : β → Bool) :
    (l.map f).all p = l.all (fun a => p (f a)) := by
  induction l with
  | nil => rfl
  | cons a l ih => simp only [List.map_cons, List.all_cons, ih]

theorem portEntries_eq (op : Option (List PortDecl)) :
    portEntries op = (op.getD []).map (fun o => (o.envVar, toString o.port)) := by
  cases op <;> rfl

theorem optionEntries_eq (op : Option (List AdditionalOption)) :
    optionEntries op = (op.getD []).map (fun o => (o.envVar, o.default)) := by
  cases op <;> rfl

/-- The three fixed keys are always present after the seeding object literal. -/
theorem envHasKey_seedEnv_fixed (config : Config) (procEnv : Env) :
    envHasKey (seedEnv config procEnv) "APP_REPO" = true ∧
      envHasKey (seedEnv config procEnv) "APP_VERSION" = true ∧
      envHasKey (seedEnv config procEnv) "APP_DIRECTORY" = true := by
  refine ⟨?_, ?_, ?_⟩ <;>
    · rw [seedEnv, envHasKey_objSpread]
      simp [envHasKey, envSet, List.any_cons]

/-- A key present in the inherited environment is present after seeding. -/
theorem envHasKey_seedEnv_of_proc (config : Config) (procEnv : Env) (k : String)
    (h : envHasKey procEnv k = true) :
    envHasKey (seedEnv config procEnv) k = true := by
  rw [seedEnv, envHasKey_objSpread, h, Bool.true_or]

theorem string_append_ne_empty (x y : String) (hx : x ≠ "") : x ++ y ≠ "" := by
  intro h
  apply hx
  have hd := congrArg String.data h
  rw [String.data_append] at hd
  exact String.ext (List.append_eq_nil.mp hd).1

/-- The activation command is non-empty exactly for venv and conda. -/
theorem getActivationCommand_ne_empty (config : Config) :
    getActivationCommand config ≠ ""
      ↔ (config.python = some PyEnv.venv ∨ config.python = some PyEnv.conda) := by
  unfold getActivationCommand
  match hp : config.python with
  | some PyEnv.venv =>
    simp only [hp]
    constructor
    · intro _; exact Or.inl trivial
    · intro _
      exact string_append_ne_empty _ _ (string_append_ne_empty _ _ (by decide))
  | some PyEnv.conda =>
    simp only [hp]
    constructor
    · intro _; exact Or.inr trivial
    · intro _
      exact string_append_ne_empty _ _ (string_append_ne_empty _ _ (by decide))
  | some PyEnv.none =>
    simp [hp]
  | Option.none =>
    simp [hp]

/-- When every setup script succeeds, the loop produces the concatenation
of the per-script traces, in declared order, and no error. -/
theorem runSetupScripts_all_ok (scripts : List String) (config : Config) (env : Env)
    (baseDir : String) (o : Oracle)
    (h : ∀ s ∈ scripts, (runScript s config env baseDir o).2 = none) :
    runSetupScripts scripts config env baseDir o
      = ((scripts.map (fun s => (runScript s config env baseDir o).1)).flatten, none) := by
  induction scripts with
  | nil => rfl
  | cons s rest ih =>
    have hs := h s (by simp)
    rcases hrs : runScript s config env baseDir o with ⟨tr, err⟩
    rw [hrs] at hs
    simp only at hs
    subst hs
    rw [runSetupScripts, hrs, ih (fun x hx => h x (by simp [hx]))]
    simp [hrs]

/-- When the scripts before `s` succeed and `s` fails, the loop performs
exactly the successful prefix and the failing script, then stops with
that script's error: the scripts after `s` contribute nothing. -/
theorem runSetupScripts_first_fail (pre : List String) (s : String) (post : List String)
    (config : Config) (env : Env) (baseDir : String) (o : Oracle) (e : Err)
    (hpre : ∀ x ∈ pre, (runScript x config env baseDir o).2 = none)
    (hfail : (runScript s config env baseDir o).2 = some e) :
    runSetupScripts (pre ++ s :: post) config env baseDir o
      = ((pre.map (fun x => (runScript x config env baseDir o).1)).flatten
          ++ (runScript s config env baseDir o).1, some e) := by
  induction pre with
  | nil =>
    rcases hrs : runScript s config env baseDir o with ⟨tr, err⟩
    rw [hrs] at hfail
    simp only at hfail
    subst hfail
    simp [runSetupScripts, hrs]
  | cons x rest ih =>
    have hx := hpre x (by simp)
    rcases hrx : runScript x config env baseDir o with ⟨trx, errx⟩
    rw [hrx] at hx
    simp only at hx
    subst hx
    rw [List.cons_append, runSetupScripts, hrx,
      ih (fun y hy => hpre y (by simp [hy]))]
    simp [hrx, List.append_assoc]

/-- A parsed object missing one of the required properties makes the
validation throw naming the first missing one. -/
theorem validateConfig_missing (fields : List (String × JValue)) (p : String)
    (hmiss : requiredProps.find? (fun pr => !(hasKeyJ fields pr)) = some p) :
    validateConfig (JValue.obj fields) = Except.error (JSError.missingProp p) := by
  simp only [validateConfig]
  rw [hmiss]

/-- With valid arguments and an existing directory and configuration
file, a validation error aborts `main` before any external effect. -/
theorem main_validation_err (command baseDir : String) (rawConfig : JValue)
    (procEnv : Env) (o : Oracle) (e : JSError)
    (hcmd : command = "install" ∨ command = "start")
    (hbd : (baseDir == "") = false)
    (hval : validateConfig rawConfig = Except.error e) :
    main (some command) (some baseDir) true true rawConfig procEnv o
      = ([], some (Err.configError e)) := by
  rcases hcmd with h | h <;> subst h <;> simp [main, hbd, hval]

/-! Claim theorems. -/

/-- C1 (counterexample): the claim says the configuration's
`appRepository` takes precedence over a same-named inherited entry for
the fixed key `APP_REPO`; on the code the inherited entry wins, because
`...process.env` is spread after the three fixed keys. -/
theorem c1_counterexample :
    envLookup (setEnvVars sampleConfig [("APP_REPO", "inherited")]) "APP_REPO"
        = some "inherited"
      ∧ sampleConfig.appRepository = "https://example.com/app.git"
      ∧ ("inherited" : String) ≠ "https://example.com/app.git" := by
  refine ⟨by decide, by decide, by decide⟩

/-- C1 (amended): the Environment mapping always defines the three fixed
keys `APP_REPO`, `APP_VERSION` and `APP_DIRECTORY`; each maps to the
corresponding configuration value exactly when the inherited process
environment does not define that key, and otherwise to the inherited
value — inherited entries take precedence over the configuration for the
fixed keys (and the port/option loops never overwrite them). -/
theorem c1_fixed_keys (config : Config) (procEnv : Env)
    (hnd : (procEnv.map Prod.fst).Nodup) :
    (envLookup (setEnvVars config procEnv) "APP_REPO"
        = if envHasKey procEnv "APP_REPO" = true then envLookup procEnv "APP_REPO"
          else some config.appRepository)
  ∧ (envLookup (setEnvVars config procEnv) "APP_VERSION"
        = if envHasKey procEnv "APP_VERSION" = true then envLookup procEnv "APP_VERSION"
          else some config.appVersion)
  ∧ (envLookup (setEnvVars config procEnv) "APP_DIRECTORY"
        = if envHasKey procEnv "APP_DIRECTORY" = true then envLookup procEnv "APP_DIRECTORY"
          else some config.appDirectory) := by
  obtain ⟨h1, h2, h3⟩ := envHasKey_seedEnv_fixed config procEnv
  refine ⟨?_, ?_, ?_⟩
  · simp only [setEnvVars]
    rw [envLookup_addGuarded_frame _ _ _ (envHasKey_addGuarded_frame _ _ _ h1),
      envLookup_addGuarded_frame _ _ _ h1, seedEnv, envLookup_objSpread _ _ _ hnd]
    by_cases hpk : envHasKey procEnv "APP_REPO" = true
    · simp [hpk]
    · have hf : envHasKey procEnv "APP_REPO" = false := by
        rw [← Bool.not_eq_true]; exact hpk
      rw [hf]
      simp only [Bool.false_eq_true, if_false]
      rfl
  · simp only [setEnvVars]
    rw [envLookup_addGuarded_frame _ _ _ (envHasKey_addGuarded_frame _ _ _ h2),
      envLookup_addGuarded_frame _ _ _ h2, seedEnv, envLookup_objSpread _ _ _ hnd]
    by_cases hpk : envHasKey procEnv "APP_VERSION" = true
    · simp [hpk]
    · have hf : envHasKey procEnv "APP_VERSION" = false := by
        rw [← Bool.not_eq_true]; exact hpk
      rw [hf]
      simp only [Bool.false_eq_true, if_false]
      rfl
  · simp only [setEnvVars]
    rw [envLookup_addGuarded_frame _ _ _ (envHasKey_addGuarded_frame _ _ _ h3),
      envLookup_addGuarded_frame _ _ _ h3, seedEnv, envLookup_objSpread _ _ _ hnd]
    by_cases hpk : envHasKey procEnv "APP_DIRECTORY" = true
    · simp [hpk]
    · have hf : envHasKey procEnv "APP_DIRECTORY" = false := by
        rw [← Bool.not_eq_true]; exact hpk
      rw [hf]
      simp only [Bool.false_eq_true, if_false]
      rfl

/-- C1 (witness): with an empty inherited environment the three fixed
keys carry the configuration values. -/
theorem c1_fixed_keys_witness :
    envLookup (setEnvVars sampleConfig []) "APP_REPO" = some "https://example.com/app.git"
      ∧ envLookup (setEnvVars sampleConfig []) "APP_VERSION" = some "v1.0"
      ∧ envLookup (setEnvVars sampleConfig []) "APP_DIRECTORY" = some "/opt/app" := by
  obtain ⟨h1, h2, h3⟩ := c1_fixed_keys sampleConfig [] (by simp)
  exact ⟨h1.trans (by decide), h2.trans (by decide), h3.trans (by decide)⟩

/-- C3: an entry already defined by the inherited environment is left
unchanged by the port/option loops; a port variable absent from the
seeded mapping is set to the first matching declaration's port number
rendered as a string; an option variable absent from the seeded mapping
and not claimed by any port is set to the first matching option's
default value. -/
theorem c3_ports_options (config : Config) (procEnv : Env) (k : String)
    (hnd : (procEnv.map Prod.fst).Nodup) :
    (envHasKey procEnv k = true →
        envLookup (setEnvVars config procEnv) k = envLookup procEnv k)
  ∧ (envHasKey (seedEnv config procEnv) k = false →
      ∀ pd : PortDecl,
        (config.ports.getD []).find? (fun p => p.envVar == k) = some pd →
        envLookup (setEnvVars config procEnv) k = some (toString pd.port))
  ∧ (envHasKey (seedEnv config procEnv) k = false →
      (config.ports.getD []).all (fun p => !(p.envVar == k)) = true →
      ∀ od : AdditionalOption,
        (config.additionalOptions.getD []).find? (fun p => p.envVar == k) = some od →
        envLookup (setEnvVars config procEnv) k = some od.default) := by
  refine ⟨?_, ?_, ?_⟩
  · intro h
    have hs : envHasKey (seedEnv config procEnv) k = true :=
      envHasKey_seedEnv_of_proc config procEnv k h
    simp only [setEnvVars]
    rw [envLookup_addGuarded_frame _ _ _ (envHasKey_addGuarded_frame _ _ _ hs),
      envLookup_addGuarded_frame _ _ _ hs, seedEnv, envLookup_objSpread _ _ _ hnd, h]
    simp
  · intro h pd hf
    have hfm : (portEntries config.ports).find? (fun p => p.1 == k)
        = some (pd.envVar, toString pd.port) := by
      rw [portEntries_eq, List.find?_map]
      rw [show ((fun p : String × String => p.1 == k)
          ∘ (fun o : PortDecl => (o.envVar, toString o.port)))
        = (fun p : PortDecl => p.envVar == k) from rfl]
      rw [hf]
      rfl
    have hv := envLookup_addGuarded_find _ _ _ _ h hfm
    simp only [setEnvVars]
    rw [envLookup_addGuarded_frame _ _ _ (envHasKey_of_lookup _ _ _ hv), hv]
  · intro h hall od hf
    have hallm : (portEntries config.ports).all (fun p => !(p.1 == k)) = true := by
      rw [portEntries_eq, all_map_general]
      exact hall
    obtain ⟨hl, hk⟩ := addGuarded_not_mentioned (seedEnv config procEnv) _ k hallm
    have hfm : (optionEntries config.additionalOptions).find? (fun p => p.1 == k)
        = some (od.envVar, od.default) := by
      rw [optionEntries_eq, List.find?_map]
      rw [show ((fun p : String × String => p.1 == k)
          ∘ (fun o : AdditionalOption => (o.envVar, o.default)))
        = (fun p : AdditionalOption => p.envVar == k) from rfl]
      rw [hf]
      rfl
    simp only [setEnvVars]
    rw [envLookup_addGuarded_find _ _ _ _ (by rw [hk]; exact h) hfm]

/-- C3 (witness): a declared port becomes its rendered number, a
declared option its default, and an inherited entry is not overwritten. -/
theorem c3_witness :
    envLookup (setEnvVars sampleConfig []) "PORT" = some "8080"
  ∧ envLookup (setEnvVars sampleConfig []) "MODE" = some "fast"
  ∧ envLookup (setEnvVars sampleConfig [("PORT", "9")]) "PORT" = some "9" := by
  refine ⟨?_, ?_, ?_⟩
  · have h := (c3_ports_options sampleConfig [] "PORT" (by simp)).2.1 (by decide)
      ⟨"web", "PORT", 8080⟩ (by decide)
    exact h.trans (by decide)
  · have h := (c3_ports_options sampleConfig [] "MODE" (by simp)).2.2 (by decide)
      (by decide) ⟨"MODE", "fast", "execution mode"⟩ (by decide)
    exact h
  · have h := (c3_ports_options sampleConfig [("PORT", "9")] "PORT" (by simp)).1 (by decide)
    exact h.trans (by decide)

/-- C4: for every parsed configuration object missing one of the six
required fields, `main` (invoked with a valid command and an existing
base directory holding the configuration file) aborts with the
validation error naming the first missing field, after performing no
external effect — no child process is spawned. -/
theorem c4_missing_field (command baseDir : String) (fields : List (String × JValue))
    (procEnv : Env) (o : Oracle) (p : String)
    (hcmd : command = "install" ∨ command = "start")
    (hbd : (baseDir == "") = false)
    (hmiss : firstMissingProp (JValue.obj fields) = some p) :
    main (some command) (some baseDir) true true (JValue.obj fields) procEnv o
        = ([], some (Err.configError (JSError.missingProp p)))
      ∧ errorMessage (JSError.missingProp p)
        = "Missing required property in config: " ++ p := by
  refine ⟨?_, rfl⟩
  rw [firstMissingProp] at hmiss
  exact main_validation_err command baseDir _ procEnv o _ hcmd hbd
    (validateConfig_missing fields p hmiss)

/-- C4 (witness): a configuration with only `source` fails naming
`appId`, with an empty event trace. -/
theorem c4_missing_field_witness :
    main (some "install") (some "/app") true true rawMissingAppId [] oraAllOk
        = ([], some (Err.configError (JSError.missingProp "appId")))
      ∧ errorMessage (JSError.missingProp "appId")
        = "Missing required property in config: " ++ "appId" :=
  c4_missing_field "install" "/app" [("source", JValue.str "github")] [] oraAllOk "appId"
    (Or.inl rfl) (by decide) (by decide)

/-- C5: with `autoInitialize` false, and every setup script succeeding,
the `install` command produces exactly the concatenation of the
per-script Script-Runner traces, in declared order, and nothing else —
in particular no repository-initialization and no Python-provisioning
event. -/
theorem c5_install_no_autoinit (config : Config) (procEnv : Env) (baseDir : String)
    (o : Oracle) (hai : config.autoInitialize = false)
    (hok : ∀ s ∈ config.scripts.setup,
      (runScript s config (setEnvVars config procEnv) baseDir o).2 = none) :
    mainWithConfig "install" baseDir config procEnv o
      = ((config.scripts.setup.map
            (fun s => (runScript s config (setEnvVars config procEnv) baseDir o).1)).flatten,
         none) := by
  have hinit : initPhase config o = ([], none) := by
    rw [initPhase, hai]
    simp
  simp only [mainWithConfig]
  rw [hinit, runSetupScripts_all_ok _ _ _ _ _ hok]
  simp

/-- C5 (witness): concrete run of `install` with `autoInitialize` false. -/
theorem c5_install_no_autoinit_witness :
    mainWithConfig "install" "/b" sampleConfig [] oraAllOk
      = ([Event.chmod "/b/setup.sh" "755",
          Event.exec "setup.sh"
            ⟨some "/bin/bash", some (setEnvVars sampleConfig []), some "/b"⟩],
         none) := by
  have h := c5_install_no_autoinit sampleConfig [] "/b" oraAllOk (by decide) (by decide)
  exact h.trans (by decide)

/-- C6: when the initialization phase raises no error, the scripts before
`s` succeed and `s` fails, the `install` command performs exactly the
initialization events, the successful prefix and the failing script —
nothing of any later script — and the process exits non-zero. -/
theorem c6_stop_on_failure (config : Config) (procEnv : Env) (baseDir : String)
    (o : Oracle) (pre : List String) (s : String) (post : List String) (e : Err)
    (hinit : (initPhase config o).2 = none)
    (hsplit : config.scripts.setup = pre ++ s :: post)
    (hpre : ∀ x ∈ pre, (runScript x config (setEnvVars config procEnv) baseDir o).2 = none)
    (hfail : (runScript s config (setEnvVars config procEnv) baseDir o).2 = some e) :
    mainWithConfig "install" baseDir config procEnv o
      = ((initPhase config o).1
          ++ ((pre.map
                (fun x => (runScript x config (setEnvVars config procEnv) baseDir o).1)).flatten
              ++ (runScript s config (setEnvVars config procEnv) baseDir o).1),
         some e)
      ∧ exitCode (mainWithConfig "install" baseDir config procEnv o) = 1 := by
  rcases hip : initPhase config o with ⟨itr, ierr⟩
  rw [hip] at hinit
  simp only at hinit
  subst hinit
  have hrun := runSetupScripts_first_fail pre s post config (setEnvVars config procEnv)
    baseDir o e hpre hfail
  have hmain : mainWithConfig "install" baseDir config procEnv o
      = (itr ++ ((pre.map
            (fun x => (runScript x config (setEnvVars config procEnv) baseDir o).1)).flatten
          ++ (runScript s config (setEnvVars config procEnv) baseDir o).1),
         some e) := by
    simp only [mainWithConfig]
    rw [hip, hsplit, hrun]
    simp
  refine ⟨by rw [hmain], ?_⟩
  rw [hmain]
  rfl

/-- C6 (witness): for the setup sequence `[a.sh, b.sh]` where `a.sh`
exits non-zero, `b.sh` never runs and the process exits non-zero. -/
theorem c6_stop_on_failure_witness :
    mainWithConfig "install" "/b" sampleTwoScripts [] oraFailA
      = ([Event.chmod "/b/a.sh" "755",
          Event.exec "a.sh"
            ⟨some "/bin/bash", some (setEnvVars sampleTwoScripts []), some "/b"⟩],
         some (Err.childProcessError "a.sh"))
      ∧ exitCode (mainWithConfig "install" "/b" sampleTwoScripts [] oraFailA) = 1 := by
  have h := c6_stop_on_failure sampleTwoScripts [] "/b" oraFailA [] "a.sh" ["b.sh"]
    (Err.childProcessError "a.sh") (by decide) (by decide) (by simp) (by decide)
  exact ⟨h.1.trans (by decide), h.2⟩

/-- C7: the `start` command performs exactly one child-process
invocation, whose command is `scripts.start` with the activation prefix
prepended, and the prefix is non-empty exactly when
`autoActivateEnvBeforeEachStep` is true and the configured Python
environment kind is venv or conda. -/
theorem c7_start_one_exec (config : Config) (procEnv : Env) (baseDir : String)
    (o : Oracle)
    (hch : strEndsWith config.scripts.start ".sh" = true →
      o.chmodOk (pathJoin baseDir config.scripts.start) = true) :
    ((mainWithConfig "start" baseDir config procEnv o).1.filter isExecEvent
        = [Event.exec
            ((if config.autoActivateEnvBeforeEachStep then getActivationCommand config else "")
              ++ config.scripts.start)
            ⟨some "/bin/bash", some (setEnvVars config procEnv), some baseDir⟩])
    ∧ ((if config.autoActivateEnvBeforeEachStep then getActivationCommand config else "") ≠ ""
        ↔ config.autoActivateEnvBeforeEachStep = true
          ∧ (config.python = some PyEnv.venv ∨ config.python = some PyEnv.conda)) := by
  constructor
  · have hmain : mainWithConfig "start" baseDir config procEnv o
        = runScript config.scripts.start config (setEnvVars config procEnv) baseDir o := by
      simp [mainWithConfig]
    rw [hmain]
    simp only [runScript]
    by_cases hsh : strEndsWith config.scripts.start ".sh" = true
    · rw [if_pos hsh, if_pos (hch hsh)]
      by_cases hex : o.execOk
          ((if config.autoActivateEnvBeforeEachStep then getActivationCommand config else "")
            ++ config.scripts.start) = true
      · rw [if_pos hex]
        simp [isExecEvent]
      · rw [if_neg hex]
        simp [isExecEvent]
    · rw [if_neg hsh]
      by_cases hex : o.execOk
          ((if config.autoActivateEnvBeforeEachStep then getActivationCommand config else "")
            ++ config.scripts.start) = true
      · rw [if_pos hex]
        simp [isExecEvent]
      · rw [if_neg hex]
        simp [isExecEvent]
  · by_cases hact : config.autoActivateEnvBeforeEachStep = true
    · rw [if_pos hact, getActivationCommand_ne_empty]
      constructor
      · intro h; exact ⟨hact, h⟩
      · intro h; exact h.2
    · rw [if_neg hact]
      constructor
      · intro h; exact absurd rfl h
      · intro h; exact absurd h.1 hact

/-- C7 (witness): `start` with a venv configuration and activation on
performs one invocation of the prefixed start script. -/
theorem c7_start_one_exec_witness :
    (mainWithConfig "start" "/b" sampleVenv [] oraAllOk).1.filter isExecEvent
      = [Event.exec "source /opt/app/venv/bin/activate && run.sh"
          ⟨some "/bin/bash", some (setEnvVars sampleVenv []), some "/b"⟩] := by
  have h := (c7_start_one_exec sampleVenv [] "/b" oraAllOk (fun _ => by decide)).1
  exact h.trans (by decide)

/-- C8: the activation command is a shell source of
`<appDirectory>/venv/bin/activate` for venv, `conda activate <appId>`
for conda (each followed by the `&&` joiner used for prepending), and
empty for `none` or an absent python section. -/
theorem c8_activation_command (config : Config) :
    (config.python = some PyEnv.venv →
      getActivationCommand config
        = "source " ++ config.appDirectory ++ "/venv/bin/activate && ")
  ∧ (config.python = some PyEnv.conda →
      getActivationCommand config = "conda activate " ++ config.appId ++ " && ")
  ∧ ((config.python = some PyEnv.none ∨ config.python = none) →
      getActivationCommand config = "") := by
  refine ⟨?_, ?_, ?_⟩
  · intro h; simp [getActivationCommand, h]
  · intro h; simp [getActivationCommand, h]
  · rintro (h | h) <;> simp [getActivationCommand, h]

/-- C8 (witness): the three activation commands at concrete configurations. -/
theorem c8_activation_command_witness :
    getActivationCommand sampleVenv = "source " ++ sampleVenv.appDirectory ++ "/venv/bin/activate && "
  ∧ getActivationCommand sampleConda = "conda activate " ++ sampleConda.appId ++ " && "
  ∧ getActivationCommand samplePyNone = ""
  ∧ getActivationCommand sampleConfig = "" :=
  ⟨(c8_activation_command sampleVenv).1 rfl,
   (c8_activation_command sampleConda).2.1 rfl,
   (c8_activation_command samplePyNone).2.2 (Or.inl rfl),
   (c8_activation_command sampleConfig).2.2 (Or.inr rfl)⟩

/-- C9: a script whose name ends in `.sh` is chmod'ed to 755 at the path
joined under the base directory before the single invocation; a failing
chmod is fatal and the script is never executed; a script without the
extension is never chmod'ed. -/
theorem c9_chmod (script : String) (config : Config) (env : Env) (baseDir : String)
    (o : Oracle) :
    (strEndsWith script ".sh" = true → o.chmodOk (pathJoin baseDir script) = true →
        (runScript script config env baseDir o).1
          = [Event.chmod (pathJoin baseDir script) "755",
             Event.exec
               ((if config.autoActivateEnvBeforeEachStep then getActivationCommand config
                 else "") ++ script)
               ⟨some "/bin/bash", some env, some baseDir⟩])
  ∧ (strEndsWith script ".sh" = true → o.chmodOk (pathJoin baseDir script) = false →
        runScript script config env baseDir o
          = ([Event.chmod (pathJoin baseDir script) "755"], some Err.permissionError))
  ∧ (strEndsWith script ".sh" = false →
        (runScript script config env baseDir o).1.filter isChmodEvent = []) := by
  refine ⟨?_, ?_, ?_⟩
  · intro hsh hch
    simp only [runScript]
    rw [if_pos hsh, if_pos hch]
    by_cases hex : o.execOk
        ((if config.autoActivateEnvBeforeEachStep then getActivationCommand config else "")
          ++ script) = true
    · rw [if_pos hex]
    · rw [if_neg hex]
  · intro hsh hch
    simp only [runScript]
    rw [if_pos hsh, if_neg (by simp [hch])]
  · intro hsh
    simp only [runScript]
    rw [if_neg (by simp [hsh])]
    by_cases hex : o.execOk
        ((if config.autoActivateEnvBeforeEachStep then getActivationCommand config else "")
          ++ script) = true
    · rw [if_pos hex]
      simp [isChmodEvent]
    · rw [if_neg hex]
      simp [isChmodEvent]

/-- C9 (witness): chmod before execution, fatal chmod failure, and no
chmod for a non-`.sh` command. -/
theorem c9_chmod_witness :
    (runScript "setup.sh" sampleConfig [] "/b" oraAllOk).1
        = [Event.chmod "/b/setup.sh" "755",
           Event.exec "setup.sh" ⟨some "/bin/bash", some ([] : Env), some "/b"⟩]
  ∧ runScript "setup.sh" sampleConfig [] "/b" oraNoChmod
      = ([Event.chmod "/b/setup.sh" "755"], some Err.permissionError)
  ∧ (runScript "node app.js" sampleConfig [] "/b" oraAllOk).1.filter isChmodEvent = [] := by
  refine ⟨?_, ?_, ?_⟩
  · have h := (c9_chmod "setup.sh" sampleConfig [] "/b" oraAllOk).1 (by decide) (by decide)
    exact h.trans (by decide)
  · exact (c9_chmod "setup.sh" sampleConfig [] "/b" oraNoChmod).2.1 (by decide) (by decide)
  · exact (c9_chmod "node app.js" sampleConfig [] "/b" oraAllOk).2.2 (by decide)

/-- C2 (counterexample): with `autoInitialize` true, the very first child
process spawned by `install` is the `git clone`, invoked with none of
the `shell`, `env` or `cwd` options — not through `/bin/bash` and not
with the built Environment mapping, contrary to the claim that every
child process is. -/
theorem c2_counterexample :
    (mainWithConfig "install" "/b" sampleAutoInit [] oraAllOk).1.head?
        = some (Event.exec "git clone https://example.com/app.git \"/opt/app\""
            ⟨none, none, none⟩)
      ∧ (⟨none, none, none⟩ : ExecOptions).shell ≠ some "/bin/bash"
      ∧ (⟨none, none, none⟩ : ExecOptions).env
          ≠ some (setEnvVars sampleAutoInit []) := by
  refine ⟨by decide, by decide, by decide⟩

/-- C2 (amended): only the Script Runner's invocations go through
`/bin/bash` with the built Environment mapping and the base directory as
working directory; the repository clone/checkout and the Python
provisioning commands are invoked with default `execSync` options —
default shell, inherited parent environment, no working-directory
override. -/
theorem c2_exec_options (script : String) (config : Config) (env : Env)
    (baseDir : String) (o : Oracle) :
    (∀ cmd opts, Event.exec cmd opts ∈ (runScript script config env baseDir o).1 →
        opts = ⟨some "/bin/bash", some env, some baseDir⟩)
  ∧ (∀ cmd opts, Event.exec cmd opts ∈ (initializeRepo config o).1 →
        opts = defaultExecOptions)
  ∧ (∀ cmd opts, Event.exec cmd opts ∈ (setupPythonEnvironment config o).1 →
        opts = defaultExecOptions) := by
  refine ⟨?_, ?_, ?_⟩
  · intro cmd opts h
    simp only [runScript] at h
    by_cases hsh : strEndsWith script ".sh" = true
    · rw [if_pos hsh] at h
      by_cases hch : o.chmodOk (pathJoin baseDir script) = true
      · rw [if_pos hch] at h
        by_cases hex : o.execOk
            ((if config.autoActivateEnvBeforeEachStep then getActivationCommand config
              else "") ++ script) = true
        · rw [if_pos hex] at h
          simp at h
          exact h.2
        · rw [if_neg hex] at h
          simp at h
          exact h.2
      · rw [if_neg hch] at h
        simp at h
    · rw [if_neg hsh] at h
      by_cases hex : o.execOk
          ((if config.autoActivateEnvBeforeEachStep then getActivationCommand config
            else "") ++ script) = true
      · rw [if_pos hex] at h
        simp at h
        exact h.2
      · rw [if_neg hex] at h
        simp at h
        exact h.2
  · intro cmd opts h
    simp only [initializeRepo] at h
    by_cases h1 : o.execOk
        ("git clone " ++ config.appRepository ++ " \"" ++ config.appDirectory ++ "\"") = true
    · rw [if_pos h1] at h
      by_cases h2 : o.execOk
          ("cd \"" ++ config.appDirectory ++ "\" && git checkout " ++ config.appVersion) = true
      · rw [if_pos h2] at h
        simp at h
        rcases h with ⟨_, h⟩ | ⟨_, h⟩ <;> exact h
      · rw [if_neg h2] at h
        simp at h
        rcases h with ⟨_, h⟩ | ⟨_, h⟩ <;> exact h
    · rw [if_neg h1] at h
      simp at h
      exact h.2
  · intro cmd opts h
    rcases hpy : config.python with _ | pe
    · simp [setupPythonEnvironment, hpy] at h
    · cases pe with
      | venv =>
        simp only [setupPythonEnvironment, hpy] at h
        by_cases h1 : o.execOk
            ("python3 -m venv --system-site-packages \"" ++ config.appDirectory
              ++ "/venv\"") = true
        · rw [if_pos h1] at h
          simp at h
          exact h.2
        · rw [if_neg h1] at h
          simp at h
          exact h.2
      | conda =>
        simp only [setupPythonEnvironment, hpy] at h
        by_cases h1 : o.execOk ("conda create -n " ++ config.appId ++ " python=3.8 -y") = true
        · rw [if_pos h1] at h
          simp at h
          exact h.2
        · rw [if_neg h1] at h
          simp at h
          exact h.2
      | none =>
        simp [setupPythonEnvironment, hpy] at h

/-- C2 (witness): the exec event of a start-script run carries the bash
shell, the built environment and the base directory. -/
theorem c2_exec_options_witness :
    Event.exec "run.sh" ⟨some "/bin/bash", some (setEnvVars sampleConfig []), some "/b"⟩
        ∈ (runScript "run.sh" sampleConfig (setEnvVars sampleConfig []) "/b" oraAllOk).1
      ∧ (⟨some "/bin/bash", some (setEnvVars sampleConfig []), some "/b"⟩ : ExecOptions)
          = ⟨some "/bin/bash", some (setEnvVars sampleConfig []), some "/b"⟩ := by
  refine ⟨by decide, ?_⟩
  exact (c2_exec_options "run.sh" sampleConfig (setEnvVars sampleConfig []) "/b" oraAllOk).1
    "run.sh" _ (by decide)

/-- C10 (counterexample): a configuration with all six required keys
present but `scripts.setup` null fails validation — the loader checks
more than key presence, contrary to the claim that only presence of the
six keys is checked. -/
theorem c10_counterexample :
    firstMissingProp rawBadScripts = none
      ∧ validateConfig rawBadScripts = Except.error JSError.invalidScripts :=
  ⟨rfl, rfl⟩

/-- C10 (amended): validation checks presence of the six required keys
and, beyond presence, only the shape of `scripts` (`setup` an array,
`start` truthy); the values and types of the other five required fields
are never examined, so a configuration with e.g. `appId` or
`appRepository` null (or of the wrong type) passes validation and is
returned as the Configuration value. -/
theorem jsTruthy_arr (xs : List JValue) : jsTruthy (some (JValue.arr xs)) = true := rfl

theorem c10_presence_and_scripts_shape (fields : List (String × JValue))
    (hall : requiredProps.all (fun p => hasKeyJ fields p) = true)
    (hsh : scriptsShapeOk ((fields.find? (fun q => q.1 == "scripts")).map (fun q => q.2))
      = true) :
    validateConfig (JValue.obj fields) = Except.ok (JValue.obj fields) := by
  have hfind : requiredProps.find? (fun p => !(hasKeyJ fields p)) = none := by
    rw [List.find?_eq_none]
    intro x hx
    rw [List.all_eq_true] at hall
    simp [hall x hx]
  unfold scriptsShapeOk at hsh
  split at hsh
  case h_2 => exact absurd hsh (by simp)
  case h_1 sfields heq =>
    rw [Bool.and_eq_true] at hsh
    obtain ⟨hsetup, hstart⟩ := hsh
    split at hsetup
    case h_2 => exact absurd hsetup (by simp)
    case h_1 xs heq2 =>
      simp only [validateConfig]
      rw [hfind, heq]
      simp [jsGetProp, heq2, isArray, jsTruthy_arr, hstart]

/-- C10 (witness): the configuration with `appId` (and others) null but
six keys present and a well-shaped `scripts` passes validation and is
returned unchanged. -/
theorem c10_presence_witness :
    (rawNullFieldsList.find? (fun q => q.1 == "appId")).map (fun q => q.2)
        = some JValue.null
      ∧ validateConfig (JValue.obj rawNullFieldsList)
        = Except.ok (JValue.obj rawNullFieldsList) := by
  refine ⟨rfl, ?_⟩
  exact c10_presence_and_scripts_shape rawNullFieldsList (by decide) (by decide)

end Labkit
